import Mathlib

/-!
Verification of the `diesel-sqltype-enum-pg` derive-macro generator.

The repository is a single procedural macro (`src/lib.rs`): `describe` parses
the annotated item as an enum, scans its attributes for `fromtosql`, parses
each such attribute's arguments as a non-empty `=`-separated sequence of
identifiers (`Punctuated::<Ident, Eq>::parse_separated_nonempty` under
`parse_args_with`, with `.unwrap()` so a parse failure panics), collects the
last identifier of every sequence whose first identifier is `sql_type`, and
either aborts with a fixed usage message (`error_message`) when nothing was
collected or emits two trait implementations (`generate_from_to_sql`).

We embed the stage after `syn::parse2::<ItemEnum>` succeeded (the item-level
parse itself belongs to the external `syn` crate): an `ItemEnum` value with
its identifier, attributes and variants.  The emitted token stream is
modelled structurally as the list of the two `impl` blocks of the `quote!`
template, and the runtime behaviour of the generated method bodies is
embedded as Lean functions parameterized by the consumer-supplied contracts
(`to_string`, `from_str` with its error type's `{:?}` formatting, and
diesel's text decoder for `PgValue`).
-/

/-- One token of an attribute's argument list: an identifier, the `=`
punctuation, or any other (non-identifier) token such as a literal. -/
inductive ArgTok where
  | identTok (s : String)
  | eqTok
  | litTok (s : String)
  deriving DecidableEq

/-- A parsed attribute attached to the enum declaration: its path (a single
segment, compared by `is_ident`) and its parenthesized argument tokens. -/
structure Attr where
  path : String
  args : List ArgTok
  deriving DecidableEq

/-- The parsed input item (`syn::ItemEnum`): its identifier, its outer
attributes, and its (unit) variant identifiers. -/
structure ItemEnum where
  ident : String
  attrs : List Attr
  variants : List String
  deriving DecidableEq

/-- Tail of `Punctuated::<Ident, Eq>::parse_separated_nonempty` after the
first identifier: alternately an `Eq` separator and an identifier, until the
input (which `parse_args_with` requires to be fully consumed) is exhausted. -/
def parse_punctuated_tail : List ArgTok → Option (List String)
  | [] => some []
  | ArgTok.eqTok :: ArgTok.identTok s :: rest =>
      (parse_punctuated_tail rest).map (fun l => s :: l)
  | _ => none

/-- `a.parse_args_with(Punctuated::<Ident, Eq>::parse_separated_nonempty)`:
succeeds exactly on `ident (= ident)*` with nothing left over, returning the
identifiers in order; `none` models the `Err` that `.unwrap()` turns into a
panic. -/
def parse_separated_nonempty : List ArgTok → Option (List String)
  | ArgTok.identTok s :: rest =>
      (parse_punctuated_tail rest).map (fun l => s :: l)
  | _ => none

/-- The body of the `flat_map` closure in `describe` for one `fromtosql`
attribute: parse the arguments (`none` = the `.unwrap()` panic), take
`parser.first()` as the key and `parser.last()` as the value, and push the
value exactly when the key's text is `"sql_type"`. -/
def attr_sql_type_values (a : Attr) : Option (List String) :=
  match parse_separated_nonempty a.args with
  | none => none
  | some l =>
      if l.head? = some "sql_type" then
        match l.getLast? with
        | some v => some [v]
        | none => some []
      else some []

/-- The `filter`/`flat_map`/`collect` pipeline of `describe` over all
attributes: attributes whose path is not `fromtosql` are skipped; a parse
failure in any retained attribute panics (`none`); otherwise the pushed
values are concatenated in source order. -/
def collect_sql_types : List Attr → Option (List String)
  | [] => some []
  | a :: rest =>
      if a.path = "fromtosql" then
        match attr_sql_type_values a with
        | none => none
        | some vs =>
            match collect_sql_types rest with
            | none => none
            | some ws => some (vs ++ ws)
      else collect_sql_types rest

/-- Which of the two diesel traits an emitted `impl` block implements. -/
inductive TraitKind where
  | toSqlTrait
  | fromSqlTrait
  deriving DecidableEq

/-- Structural model of one `impl` block of the `quote!` template in
`generate_from_to_sql`: the trait implemented, the companion SQL type
identifier interpolated as `#att`, and the self type interpolated as
`#ident`.  Both identifiers appear in the output exactly as interpolated. -/
structure ImplBlock where
  traitKind : TraitKind
  sqlTypeArg : String
  selfType : String
  deriving DecidableEq

/-- `generate_from_to_sql(att, ident)`: the `quote!` template emits exactly
the `ToSql` block followed by the `FromSql` block, both interpolating `att`
and `ident` verbatim. -/
def generate_from_to_sql (att : String) (ident : String) : List ImplBlock :=
  [⟨TraitKind.toSqlTrait, att, ident⟩, ⟨TraitKind.fromSqlTrait, att, ident⟩]

/-- The fixed usage diagnostic returned by `error_message()` in
`src/lib.rs`, with Rust's line-continuation escapes resolved. -/
def error_message : String :=
  "`fromtosql` attribute not found.\n Please add #[fromtosql(sql_type = MyEntityEnumSqlType)] to your enum \n\n" ++
  "Example:\n\n #[derive(Debug, PartialEq, EnumString, Display, FromToSql)]\n " ++
  "#[fromtosql(sql_type = MyEntityEnumSqlType)]\n enum MyEntityEnum \x7b \n" ++
  "\t  #[strum(serialize = \"ONE\")]\n \t  EnumOne, \n" ++
  "\t  #[strum(serialize = \"TWO\")]\n \t  EnumTwo,\n \x7d "

/-- Observable outcome of one macro invocation: `panicked` is the uncaught
`.unwrap()` failure on malformed attribute arguments, `aborted` is the
`abort!` with the generator's own diagnostic, `emitted` is a successfully
returned token stream. -/
inductive DescribeResult where
  | panicked
  | aborted (msg : String)
  | emitted (out : List ImplBlock)
  deriving DecidableEq

/-- The macro entry point `describe`, after the `syn::parse2::<ItemEnum>`
stage: collect the `sql_type` values from the `fromtosql` attributes
(panicking on a malformed argument list), abort with `error_message` when
`binding.first()` is `None`, and otherwise emit
`generate_from_to_sql(att, ident)` for the first collected value. -/
def describe (e : ItemEnum) : DescribeResult :=
  match collect_sql_types e.attrs with
  | none => DescribeResult.panicked
  | some binding =>
      match binding.head? with
      | none => DescribeResult.aborted error_message
      | some att => DescribeResult.emitted (generate_from_to_sql att e.ident)

/-- `IsNull` of `diesel::serialize`. -/
inductive IsNull where
  | no
  | yes
  deriving DecidableEq

/-- The in-memory output buffer behind `diesel::serialize::Output` (a byte
sink); bytes are modelled as `Nat` values below 256 produced by UTF-8
encoding. -/
structure OutputBuf where
  data : List Nat
  deriving DecidableEq

/-- UTF-8 bytes of a string (`as_bytes` on the Rust side). -/
def utf8Bytes (s : String) : List Nat :=
  s.toUTF8.toList.map (fun b => b.toNat)

/-- `out.write_all(bytes)` on the in-memory sink: appends and succeeds. -/
def write_all (out : OutputBuf) (bytes : List Nat) :
    OutputBuf × Except String Unit :=
  (⟨out.data ++ bytes⟩, Except.ok ())

/-- Runtime behaviour of the generated `to_sql` body:
`out.write_all(self.to_string().as_bytes())?; Ok(IsNull::No)`, parameterized
by the consumer's `to_string` contract. -/
def to_sql_gen {V : Type} (toStr : V → String) (v : V) (out : OutputBuf) :
    OutputBuf × Except String IsNull :=
  match write_all out (utf8Bytes (toStr v)) with
  | (out1, Except.ok _) => (out1, Except.ok IsNull.no)
  | (out1, Except.error e) => (out1, Except.error e)

/-- Runtime behaviour of the generated `from_sql` body: decode the `PgValue`
bytes to a `String` via diesel's `FromSql<Text, Pg>` (parameter
`textFromSql`), then `#ident::from_str(value.as_str())`, mapping a parse
error `e` to `format!("Error converting from PgValue {:?}", e)` — note the
formatted payload is the parse error, via its debug formatter `debugFmt`. -/
def from_sql_gen {V E : Type} (fromStr : String → Except E V)
    (debugFmt : E → String) (textFromSql : List Nat → Except String String)
    (bytes : List Nat) : Except String V :=
  match textFromSql bytes with
  | Except.error e => Except.error e
  | Except.ok value =>
      match fromStr value with
      | Except.ok v => Except.ok v
      | Except.error e =>
          Except.error ("Error converting from PgValue " ++ debugFmt e)

/-- `tests/from_to_sql_test.rs`: `enum EnumStruct { EnumOne, EnumTwo }`. -/
inductive EnumStruct where
  | EnumOne
  | EnumTwo
  deriving DecidableEq

/-- strum's `Display` for `EnumStruct` (default serialization: the variant
name). -/
def enumStructToString : EnumStruct → String
  | EnumStruct.EnumOne => "EnumOne"
  | EnumStruct.EnumTwo => "EnumTwo"

/-- strum's parse error: `strum::ParseError::VariantNotFound`, a unit-like
variant carrying no payload. -/
inductive StrumParseError where
  | variantNotFound
  deriving DecidableEq

/-- Rust `{:?}` (Debug) output for `strum::ParseError`. -/
def strumParseErrorDebug : StrumParseError → String
  | StrumParseError.variantNotFound => "VariantNotFound"

/-- strum's `EnumString` (`from_str`) for `EnumStruct`. -/
def enumStructFromStr (s : String) : Except StrumParseError EnumStruct :=
  if s = "EnumOne" then Except.ok EnumStruct.EnumOne
  else if s = "EnumTwo" then Except.ok EnumStruct.EnumTwo
  else Except.error StrumParseError.variantNotFound

/-- Rust's `{:?}` (Debug) representation of a string value: the text in
double quotes (no further escaping needed for the inputs considered here). -/
def rustStrDebug (s : String) : String := "\"" ++ s ++ "\""

/-- Substring containment on strings (decidable). -/
def strContains (hay sub : String) : Prop :=
  sub.data <:+: hay.data

instance (hay sub : String) : Decidable (strContains hay sub) :=
  List.decidableInfix sub.data hay.data

/-- The `#[fromtosql(sql_type = v)]` attribute, as in the tests. -/
def mkSqlTypeAttr (v : String) : Attr :=
  ⟨"fromtosql", [ArgTok.identTok "sql_type", ArgTok.eqTok, ArgTok.identTok v]⟩

theorem collect_sql_types_skip (a : Attr) (xs : List Attr)
    (h : a.path ≠ "fromtosql") :
    collect_sql_types (a :: xs) = collect_sql_types xs := by
  simp [collect_sql_types, h]

theorem collect_sql_types_of_no_fromtosql (xs : List Attr)
    (h : ∀ a ∈ xs, a.path ≠ "fromtosql") :
    collect_sql_types xs = some [] := by
  induction xs with
  | nil => rfl
  | cons a rest ih =>
      rw [collect_sql_types_skip a rest (h a (List.mem_cons_self a rest))]
      exact ih (fun b hb => h b (List.mem_cons_of_mem a hb))

theorem attr_sql_type_values_of_key (a : Attr) (l : List String)
    (hparse : parse_separated_nonempty a.args = some l)
    (hkey : l.head? = some "sql_type") :
    ∃ v, l.getLast? = some v ∧ attr_sql_type_values a = some [v] := by
  have hne : l ≠ [] := by
    intro h
    subst h
    simp at hkey
  refine ⟨l.getLast hne, List.getLast?_eq_getLast l hne, ?_⟩
  unfold attr_sql_type_values
  rw [hparse]
  simp [hkey, List.getLast?_eq_getLast l hne]

theorem attr_sql_type_values_wrong_key (a : Attr) (l : List String)
    (hparse : parse_separated_nonempty a.args = some l)
    (hkey : l.head? ≠ some "sql_type") :
    attr_sql_type_values a = some [] := by
  unfold attr_sql_type_values
  rw [hparse]
  simp [hkey]

theorem collect_sql_types_single (pre post : List Attr) (a : Attr)
    (vs : List String)
    (hpre : ∀ b ∈ pre, b.path ≠ "fromtosql")
    (hpost : ∀ b ∈ post, b.path ≠ "fromtosql")
    (hpath : a.path = "fromtosql")
    (hav : attr_sql_type_values a = some vs) :
    collect_sql_types (pre ++ a :: post) = some vs := by
  induction pre with
  | nil =>
      simp [collect_sql_types, hpath, hav,
        collect_sql_types_of_no_fromtosql post hpost]
  | cons b bs ih =>
      rw [List.cons_append,
        collect_sql_types_skip b (bs ++ a :: post) (hpre b (List.mem_cons_self b bs))]
      exact ih (fun c hc => hpre c (List.mem_cons_of_mem b hc))

theorem collect_sql_types_none_of_malformed (xs : List Attr) (a : Attr)
    (hmem : a ∈ xs) (hpath : a.path = "fromtosql")
    (hbad : parse_separated_nonempty a.args = none) :
    collect_sql_types xs = none := by
  induction xs with
  | nil => cases hmem
  | cons b rest ih =>
      rcases List.mem_cons.mp hmem with h | h
      · subst h
        have hav : attr_sql_type_values a = none := by
          unfold attr_sql_type_values
          rw [hbad]
        simp [collect_sql_types, hpath, hav]
      · by_cases hb : b.path = "fromtosql"
        · cases hav : attr_sql_type_values b <;>
            simp [collect_sql_types, hb, hav, ih h]
        · rw [collect_sql_types_skip b rest hb]
          exact ih h

theorem collect_sql_types_map_mk (ws : List String) :
    collect_sql_types (ws.map mkSqlTypeAttr) = some ws := by
  induction ws with
  | nil => rfl
  | cons w ws ih =>
      have h1 : collect_sql_types (mkSqlTypeAttr w :: List.map mkSqlTypeAttr ws) =
          match collect_sql_types (List.map mkSqlTypeAttr ws) with
          | none => none
          | some rest => some (w :: rest) := rfl
      rw [List.map_cons, h1, ih]

theorem describe_single_attr_of_key (n : String) (variants : List String)
    (a : Attr) (l : List String)
    (hpath : a.path = "fromtosql")
    (hparse : parse_separated_nonempty a.args = some l)
    (hkey : l.head? = some "sql_type") :
    ∃ v, l.getLast? = some v ∧
      describe ⟨n, [a], variants⟩ =
        DescribeResult.emitted (generate_from_to_sql v n) := by
  obtain ⟨v, hlast, hav⟩ := attr_sql_type_values_of_key a l hparse hkey
  refine ⟨v, hlast, ?_⟩
  have hc : collect_sql_types [a] = some [v] :=
    collect_sql_types_single [] [] a [v] (by simp) (by simp) hpath hav
  unfold describe
  rw [show (⟨n, [a], variants⟩ : ItemEnum).attrs = [a] from rfl, hc]
  rfl

/-- C1: for every enum declaration (any identifier, any list of unit
variants, so any N ≥ 0) carrying a `fromtosql` attribute whose argument
list parses and whose first identifier is `sql_type` (and no other
`fromtosql` attribute), `describe` succeeds and emits exactly two
implementation blocks — one `ToSql`, one `FromSql` — each referencing the
enum's declared identifier and the extracted companion-type identifier
verbatim. -/
theorem describe_valid_attr_emits_two_impls
    (e : ItemEnum) (pre post : List Attr) (a : Attr) (l : List String)
    (hsplit : e.attrs = pre ++ a :: post)
    (hpre : ∀ b ∈ pre, b.path ≠ "fromtosql")
    (hpost : ∀ b ∈ post, b.path ≠ "fromtosql")
    (hpath : a.path = "fromtosql")
    (hparse : parse_separated_nonempty a.args = some l)
    (hkey : l.head? = some "sql_type") :
    ∃ v, l.getLast? = some v ∧
      describe e = DescribeResult.emitted
        [⟨TraitKind.toSqlTrait, v, e.ident⟩,
         ⟨TraitKind.fromSqlTrait, v, e.ident⟩] := by
  obtain ⟨v, hlast, hav⟩ := attr_sql_type_values_of_key a l hparse hkey
  refine ⟨v, hlast, ?_⟩
  have hc : collect_sql_types e.attrs = some [v] := by
    rw [hsplit]
    exact collect_sql_types_single pre post a [v] hpre hpost hpath hav
  unfold describe
  rw [hc]
  rfl

theorem describe_valid_attr_emits_two_impls_witness :
    ∃ v, (["sql_type", "EnumStructSqlType"] : List String).getLast? = some v ∧
      describe ⟨"EnumStruct", [mkSqlTypeAttr "EnumStructSqlType"],
          ["EnumOne", "EnumTwo"]⟩ =
        DescribeResult.emitted
          [⟨TraitKind.toSqlTrait, v, "EnumStruct"⟩,
           ⟨TraitKind.fromSqlTrait, v, "EnumStruct"⟩] :=
  describe_valid_attr_emits_two_impls
    ⟨"EnumStruct", [mkSqlTypeAttr "EnumStructSqlType"], ["EnumOne", "EnumTwo"]⟩
    [] [] (mkSqlTypeAttr "EnumStructSqlType") ["sql_type", "EnumStructSqlType"]
    rfl (by simp) (by simp) rfl rfl rfl

/-- C2: for every enum declaration carrying no `fromtosql` attribute at all,
`describe` aborts with exactly the fixed usage diagnostic `error_message`
and emits no implementation code. -/
theorem describe_missing_attr_aborts (e : ItemEnum)
    (h : ∀ a ∈ e.attrs, a.path ≠ "fromtosql") :
    describe e = DescribeResult.aborted error_message ∧
      ∀ out, describe e ≠ DescribeResult.emitted out := by
  have hc : collect_sql_types e.attrs = some [] :=
    collect_sql_types_of_no_fromtosql e.attrs h
  have hd : describe e = DescribeResult.aborted error_message := by
    unfold describe
    rw [hc]
    rfl
  exact ⟨hd, fun out hout => by rw [hd] at hout; cases hout⟩

theorem describe_missing_attr_aborts_witness :
    describe ⟨"EnumStruct", [⟨"derive", []⟩], ["EnumOne", "EnumTwo"]⟩ =
        DescribeResult.aborted error_message ∧
      ∀ out, describe ⟨"EnumStruct", [⟨"derive", []⟩], ["EnumOne", "EnumTwo"]⟩ ≠
        DescribeResult.emitted out :=
  describe_missing_attr_aborts
    ⟨"EnumStruct", [⟨"derive", []⟩], ["EnumOne", "EnumTwo"]⟩
    (by intro a ha; simp only [List.mem_singleton] at ha; subst ha; decide)

/-- C3 counterexample: with the test enum `EnumStruct` (strum-derived
conversions), reading the text `"Bogus"` yields the error message
`"Error converting from PgValue VariantNotFound"` — the `{:?}` payload is
the parse error, and the message does not contain the offending text's
debug representation `"Bogus"` (with quotes), refuting the claim as
stated. -/
theorem from_sql_error_text_debug_counterexample :
    from_sql_gen enumStructFromStr strumParseErrorDebug
        (fun _ => Except.ok "Bogus") [] =
      Except.error "Error converting from PgValue VariantNotFound" ∧
    ¬ strContains "Error converting from PgValue VariantNotFound"
        (rustStrDebug "Bogus") := by
  constructor
  · rfl
  · decide

/-- C3 (amended): for every textual input on which the consumer's `from_str`
fails, the generated `from_sql` returns a recoverable error value (it is a
total function into `Except`, never a panic), and the error message contains
the word `"Error"` and the debug representation of the underlying parse
error — not of the offending text. -/
theorem from_sql_error_contains_error_and_parse_err_debug
    {V E : Type} (fromStr : String → Except E V) (debugFmt : E → String)
    (textFromSql : List Nat → Except String String) (bytes : List Nat)
    (text : String) (e : E)
    (h1 : textFromSql bytes = Except.ok text)
    (h2 : fromStr text = Except.error e) :
    ∃ msg, from_sql_gen fromStr debugFmt textFromSql bytes = Except.error msg ∧
      strContains msg "Error" ∧ strContains msg (debugFmt e) := by
  refine ⟨"Error converting from PgValue " ++ debugFmt e, ?_, ?_, ?_⟩
  · unfold from_sql_gen
    rw [h1]
    show (match fromStr text with
      | Except.ok v => Except.ok v
      | Except.error e =>
          Except.error ("Error converting from PgValue " ++ debugFmt e)) =
      Except.error ("Error converting from PgValue " ++ debugFmt e)
    rw [h2]
  · have hdata : ("Error converting from PgValue " ++ debugFmt e).data =
        "Error".data ++ (" converting from PgValue ".data ++ (debugFmt e).data) := by
      rw [String.data_append]
      rfl
    exact ⟨[], " converting from PgValue ".data ++ (debugFmt e).data, by
      rw [hdata]; simp⟩
  · exact ⟨"Error converting from PgValue ".data, [], by
      rw [String.data_append]; simp⟩

theorem from_sql_error_contains_error_and_parse_err_debug_witness :
    ∃ msg, from_sql_gen enumStructFromStr strumParseErrorDebug
        (fun _ => Except.ok "Bogus") (utf8Bytes "Bogus") = Except.error msg ∧
      strContains msg "Error" ∧
      strContains msg (strumParseErrorDebug StrumParseError.variantNotFound) :=
  from_sql_error_contains_error_and_parse_err_debug
    enumStructFromStr strumParseErrorDebug (fun _ => Except.ok "Bogus")
    (utf8Bytes "Bogus") "Bogus" StrumParseError.variantNotFound rfl rfl

/-- C4: the generated `to_sql` body cannot fail: for every enum value it
appends the UTF-8 bytes of the value's textual representation to the output
buffer and returns success with `IsNull::No` — never an error and never a
null signal. -/
theorem to_sql_never_fails {V : Type} (toStr : V → String) (v : V)
    (out : OutputBuf) :
    to_sql_gen toStr v out =
      (⟨out.data ++ utf8Bytes (toStr v)⟩, Except.ok IsNull.no) := rfl

/-- C5: round-trip — for every variant `v` whose stringification and parsing
contracts are mutual inverses at `v`, feeding the stringification of `v`
through the generated `from_sql` parse step yields `v` unchanged. -/
theorem from_sql_roundtrip {V E : Type} (fromStr : String → Except E V)
    (toStr : V → String) (debugFmt : E → String)
    (textFromSql : List Nat → Except String String) (bytes : List Nat) (v : V)
    (hinv : fromStr (toStr v) = Except.ok v)
    (hdecode : textFromSql bytes = Except.ok (toStr v)) :
    from_sql_gen fromStr debugFmt textFromSql bytes = Except.ok v := by
  unfold from_sql_gen
  rw [hdecode]
  show (match fromStr (toStr v) with
    | Except.ok v => Except.ok v
    | Except.error e =>
        Except.error ("Error converting from PgValue " ++ debugFmt e)) =
    Except.ok v
  rw [hinv]

theorem from_sql_roundtrip_witness :
    from_sql_gen enumStructFromStr strumParseErrorDebug
        (fun _ => Except.ok "EnumOne") (utf8Bytes "EnumOne") =
      Except.ok EnumStruct.EnumOne :=
  from_sql_roundtrip enumStructFromStr enumStructToString strumParseErrorDebug
    (fun _ => Except.ok "EnumOne") (utf8Bytes "EnumOne") EnumStruct.EnumOne
    rfl rfl

theorem collect_sql_types_of_wrong_keys (xs : List Attr)
    (h : ∀ a ∈ xs, a.path = "fromtosql" →
      ∃ l, parse_separated_nonempty a.args = some l ∧ l.head? ≠ some "sql_type") :
    collect_sql_types xs = some [] := by
  induction xs with
  | nil => rfl
  | cons a rest ih =>
      by_cases hp : a.path = "fromtosql"
      · obtain ⟨l, hparse, hkey⟩ := h a (List.mem_cons_self a rest) hp
        have hav := attr_sql_type_values_wrong_key a l hparse hkey
        have hr := ih (fun b hb => h b (List.mem_cons_of_mem a hb))
        simp [collect_sql_types, hp, hav, hr]
      · rw [collect_sql_types_skip a rest hp]
        exact ih (fun b hb => h b (List.mem_cons_of_mem a hb))

/-- C6: for every enum declaration whose `fromtosql` attributes are present
but all use a key different from `sql_type` (their argument lists parse,
with a first identifier other than `sql_type`), generation fails exactly as
in the missing-attribute case: the same fixed usage diagnostic, and no
implementation code emitted. -/
theorem describe_wrong_key_aborts (e : ItemEnum)
    (h : ∀ a ∈ e.attrs, a.path = "fromtosql" →
      ∃ l, parse_separated_nonempty a.args = some l ∧ l.head? ≠ some "sql_type") :
    describe e = DescribeResult.aborted error_message ∧
      ∀ out, describe e ≠ DescribeResult.emitted out := by
  have hc : collect_sql_types e.attrs = some [] :=
    collect_sql_types_of_wrong_keys e.attrs h
  have hd : describe e = DescribeResult.aborted error_message := by
    unfold describe
    rw [hc]
    rfl
  exact ⟨hd, fun out hout => by rw [hd] at hout; cases hout⟩

theorem describe_wrong_key_aborts_witness :
    describe ⟨"EnumStruct",
        [⟨"fromtosql", [ArgTok.identTok "other_key", ArgTok.eqTok,
          ArgTok.identTok "X"]⟩], ["EnumOne"]⟩ =
        DescribeResult.aborted error_message ∧
      ∀ out, describe ⟨"EnumStruct",
        [⟨"fromtosql", [ArgTok.identTok "other_key", ArgTok.eqTok,
          ArgTok.identTok "X"]⟩], ["EnumOne"]⟩ ≠
        DescribeResult.emitted out :=
  describe_wrong_key_aborts
    ⟨"EnumStruct",
      [⟨"fromtosql", [ArgTok.identTok "other_key", ArgTok.eqTok,
        ArgTok.identTok "X"]⟩], ["EnumOne"]⟩
    (by
      intro a ha
      simp only [List.mem_singleton] at ha
      subst ha
      intro _
      exact ⟨["other_key", "X"], rfl, by decide⟩)

/-- C7: when the declaration carries multiple `fromtosql` attributes with
the `sql_type` key, `describe` uses the value of the first one in source
order as the companion type and emits normally — no conflict error for the
later ones. -/
theorem describe_multiple_sql_type_uses_first (n v : String)
    (vs : List String) (variants : List String) :
    describe ⟨n, (v :: vs).map mkSqlTypeAttr, variants⟩ =
      DescribeResult.emitted (generate_from_to_sql v n) := by
  unfold describe
  rw [show (⟨n, (v :: vs).map mkSqlTypeAttr, variants⟩ : ItemEnum).attrs =
      (v :: vs).map mkSqlTypeAttr from rfl,
    collect_sql_types_map_mk]
  rfl

/-- C8: when any `fromtosql` attribute's argument tokens do not parse as a
non-empty `=`-separated identifier sequence, the generator panics via the
uncaught `.unwrap()` failure of the underlying parser: it never reaches its
own usage diagnostic and emits no code. -/
theorem describe_malformed_args_panics (e : ItemEnum) (a : Attr)
    (hmem : a ∈ e.attrs) (hpath : a.path = "fromtosql")
    (hbad : parse_separated_nonempty a.args = none) :
    describe e = DescribeResult.panicked ∧
      (∀ out, describe e ≠ DescribeResult.emitted out) ∧
      ∀ msg, describe e ≠ DescribeResult.aborted msg := by
  have hc := collect_sql_types_none_of_malformed e.attrs a hmem hpath hbad
  have hd : describe e = DescribeResult.panicked := by
    unfold describe
    rw [hc]
  refine ⟨hd, fun out hout => ?_, fun msg hmsg => ?_⟩
  · rw [hd] at hout
    cases hout
  · rw [hd] at hmsg
    cases hmsg

theorem describe_malformed_args_panics_witness :
    describe ⟨"EnumStruct",
        [⟨"fromtosql", [ArgTok.identTok "sql_type", ArgTok.identTok "A"]⟩],
        []⟩ = DescribeResult.panicked ∧
      (∀ out, describe ⟨"EnumStruct",
        [⟨"fromtosql", [ArgTok.identTok "sql_type", ArgTok.identTok "A"]⟩],
        []⟩ ≠ DescribeResult.emitted out) ∧
      ∀ msg, describe ⟨"EnumStruct",
        [⟨"fromtosql", [ArgTok.identTok "sql_type", ArgTok.identTok "A"]⟩],
        []⟩ ≠ DescribeResult.aborted msg :=
  describe_malformed_args_panics
    ⟨"EnumStruct",
      [⟨"fromtosql", [ArgTok.identTok "sql_type", ArgTok.identTok "A"]⟩], []⟩
    ⟨"fromtosql", [ArgTok.identTok "sql_type", ArgTok.identTok "A"]⟩
    (List.mem_singleton.mpr rfl) rfl rfl

/-- C9: the emitted artifact depends only on the enum's identifier and the
first collected `sql_type` value: two declarations that agree on both (and
whose attribute collection succeeds) produce the same result, regardless of
their variant lists, which are never inspected after parsing. -/
theorem describe_depends_only_on_ident_and_first_value
    (e1 e2 : ItemEnum) (b1 b2 : List String)
    (h1 : collect_sql_types e1.attrs = some b1)
    (h2 : collect_sql_types e2.attrs = some b2)
    (hh : b1.head? = b2.head?)
    (hi : e1.ident = e2.ident) :
    describe e1 = describe e2 := by
  unfold describe
  rw [h1, h2]
  show (match b1.head? with
    | none => DescribeResult.aborted error_message
    | some att => DescribeResult.emitted (generate_from_to_sql att e1.ident)) =
    (match b2.head? with
    | none => DescribeResult.aborted error_message
    | some att => DescribeResult.emitted (generate_from_to_sql att e2.ident))
  rw [hh, hi]

theorem describe_depends_only_on_ident_and_first_value_witness :
    describe ⟨"EnumStruct", [mkSqlTypeAttr "T"], ["EnumOne", "EnumTwo"]⟩ =
      describe ⟨"EnumStruct", [mkSqlTypeAttr "T", mkSqlTypeAttr "U"], []⟩ :=
  describe_depends_only_on_ident_and_first_value
    ⟨"EnumStruct", [mkSqlTypeAttr "T"], ["EnumOne", "EnumTwo"]⟩
    ⟨"EnumStruct", [mkSqlTypeAttr "T", mkSqlTypeAttr "U"], []⟩
    ["T"] ["T", "U"] rfl rfl rfl rfl

/-- C10: the companion type collected from a `fromtosql` attribute whose
argument list's first identifier is `sql_type` is the LAST identifier of the
sequence: in particular `#[fromtosql(sql_type)]` is accepted and yields the
identifier `sql_type` itself, and `#[fromtosql(sql_type = A = B)]` yields
`B`. -/
theorem companion_type_is_last_ident
    (n A B : String) (a : Attr) (l : List String)
    (hpath : a.path = "fromtosql")
    (hparse : parse_separated_nonempty a.args = some l)
    (hkey : l.head? = some "sql_type") :
    (∃ v, l.getLast? = some v ∧
       describe ⟨n, [a], []⟩ =
         DescribeResult.emitted (generate_from_to_sql v n)) ∧
    describe ⟨n, [⟨"fromtosql", [ArgTok.identTok "sql_type"]⟩], []⟩ =
      DescribeResult.emitted (generate_from_to_sql "sql_type" n) ∧
    describe ⟨n, [⟨"fromtosql",
        [ArgTok.identTok "sql_type", ArgTok.eqTok, ArgTok.identTok A,
         ArgTok.eqTok, ArgTok.identTok B]⟩], []⟩ =
      DescribeResult.emitted (generate_from_to_sql B n) :=
  ⟨describe_single_attr_of_key n [] a l hpath hparse hkey, rfl, rfl⟩

theorem companion_type_is_last_ident_witness :
    (∃ v, (["sql_type", "T"] : List String).getLast? = some v ∧
       describe ⟨"E", [mkSqlTypeAttr "T"], []⟩ =
         DescribeResult.emitted (generate_from_to_sql v "E")) ∧
    describe ⟨"E", [⟨"fromtosql", [ArgTok.identTok "sql_type"]⟩], []⟩ =
      DescribeResult.emitted (generate_from_to_sql "sql_type" "E") ∧
    describe ⟨"E", [⟨"fromtosql",
        [ArgTok.identTok "sql_type", ArgTok.eqTok, ArgTok.identTok "A",
         ArgTok.eqTok, ArgTok.identTok "B"]⟩], []⟩ =
      DescribeResult.emitted (generate_from_to_sql "B" "E") :=
  companion_type_is_last_ident "E" "A" "B" (mkSqlTypeAttr "T")
    ["sql_type", "T"] rfl rfl rfl
